import Mathlib

/-!
Verification of the gotel facade (Go) against its natural-language
specification, via a shallow embedding of the relevant packages:
`attribute`, `tracing`, `metrics`, `log` and the unified `otel`
initializer.  Pure Go functions become Lean functions; the package-level
mutable state (`metricsInstance`, the `tracer` variable, the exported
span list, the data-point log) is passed explicitly.  External SDK
behaviour that the repository only calls into (the OTel span status
convention, the W3C trace-context propagator, the slog level parser and
JSON handler) is modelled from the specification; those definitions are
marked `Modelled from the spec:` in their doc comments.
-/

/-! ## Package `attribute` -/

namespace Attribute

/-- Opaque carrier for a Go `float64` payload.  The source never performs
floating-point arithmetic on attribute values: a `float64` is stored and
later retrieved unchanged, so its IEEE-754 bit pattern is an adequate
representation. -/
structure GoFloat64 where
  bits : Nat
deriving DecidableEq

/-- A Go value of dynamic type `any`, as discriminated by the type switch
in `attribute.New`.  Each constructor is one dynamic-kind case of the
switch; `stringer` carries the result of the value's `String()` method and
`otherValue` carries the value's `fmt.Sprintf("%v", v)` formatting, since
those are the only facts about such values the source consumes. -/
inductive GoValue where
  | goBool (b : Bool)
  | goBoolSlice (l : List Bool)
  | goFloat64 (v : GoFloat64)
  | goFloat64Slice (l : List GoFloat64)
  | goInt (v : Int)
  | goIntSlice (l : List Int)
  | goInt64 (v : Int)
  | goInt64Slice (l : List Int)
  | goString (s : String)
  | goStringSlice (l : List String)
  | stringer (strRepr : String)
  | otherValue (formatted : String)
deriving DecidableEq

/-- The value kinds of an OpenTelemetry attribute (`attribute.Value`):
BOOL, BOOLSLICE, FLOAT64, FLOAT64SLICE, INT64, INT64SLICE, STRING,
STRINGSLICE.  Go `int` payloads are converted to int64 by
`attribute.Int`. -/
inductive AttrValue where
  | bool (b : Bool)
  | boolSlice (l : List Bool)
  | float64 (v : GoFloat64)
  | float64Slice (l : List GoFloat64)
  | int64 (v : Int)
  | int64Slice (l : List Int)
  | string (s : String)
  | stringSlice (l : List String)
deriving DecidableEq

/-- `attribute.Attr`: a key/value pair wrapping an OTel KeyValue. -/
structure Attr where
  key : String
  value : AttrValue
deriving DecidableEq

/-- `attribute.New`: dispatch on the value's dynamic kind, in the source's
case order (bool, []bool, float64, []float64, int, []int, int64, []int64,
string, []string, fmt.Stringer, then the `%v` fallback).  `attribute.Int`
widens a machine `int` to `int64`. -/
def New (key : String) (value : GoValue) : Attr :=
  match value with
  | .goBool b => ⟨key, .bool b⟩
  | .goBoolSlice l => ⟨key, .boolSlice l⟩
  | .goFloat64 v => ⟨key, .float64 v⟩
  | .goFloat64Slice l => ⟨key, .float64Slice l⟩
  | .goInt v => ⟨key, .int64 v⟩
  | .goIntSlice l => ⟨key, .int64Slice l⟩
  | .goInt64 v => ⟨key, .int64 v⟩
  | .goInt64Slice l => ⟨key, .int64Slice l⟩
  | .goString s => ⟨key, .string s⟩
  | .goStringSlice l => ⟨key, .stringSlice l⟩
  | .stringer s => ⟨key, .string s⟩
  | .otherValue s => ⟨key, .string s⟩

end Attribute

/-! ## Package `tracing` -/

namespace Tracing

/-- Lowercase-hex digit character for a value in 0..15. -/
def hexDigitChar (n : Nat) : Char :=
  if n < 10 then Char.ofNat (48 + n) else Char.ofNat (87 + n)

/-- Numeric value of a lowercase-hex digit character, `none` otherwise. -/
def hexCharVal (c : Char) : Option Nat :=
  if 48 ≤ c.toNat ∧ c.toNat ≤ 57 then some (c.toNat - 48)
  else if 97 ≤ c.toNat ∧ c.toNat ≤ 102 then some (c.toNat - 87)
  else none

/-- Big-endian, zero-padded lowercase-hex rendering of `n` into exactly
`w` digits, as the OTel trace and span id `String()` methods produce. -/
def toHexChars : Nat → Nat → List Char
  | _, 0 => []
  | n, w + 1 => toHexChars (n / 16) w ++ [hexDigitChar (n % 16)]

/-- One accumulation step of hex parsing over an optional accumulator. -/
def fromHexStep (acc : Option Nat) (c : Char) : Option Nat :=
  match acc, hexCharVal c with
  | some n, some d => some (n * 16 + d)
  | _, _ => none

/-- Hex parsing with an explicit accumulator. -/
def fromHexAux (acc : Option Nat) (cs : List Char) : Option Nat :=
  cs.foldl fromHexStep acc

/-- Parse a big-endian lowercase-hex digit string. -/
def fromHexChars (cs : List Char) : Option Nat :=
  fromHexAux (some 0) cs

/-- A W3C/OTel span context: 128-bit trace id, 64-bit span id and the
sampled flag.  Ids are Nats bounded by the widths where it matters. -/
structure SpanContext where
  traceId : Nat
  spanId : Nat
  sampled : Bool
deriving DecidableEq

/-- `trace.SpanContext.IsValid`: trace id and span id both non-zero. -/
def SpanContext.isValid (sc : SpanContext) : Bool :=
  sc.traceId ≠ 0 && sc.spanId ≠ 0

/-- A Go `context.Context` as the tracing code consumes it: the span
context it carries, if any. -/
abbrev GoContext := Option SpanContext

/-- Modelled from the spec: the W3C `traceparent` header value
`<version>-<trace-id>-<span-id>-<flags>` the propagator injects for a
span context (version 00, 32-hex-digit trace id, 16-hex-digit span id,
2-hex-digit flags whose low bit is the sampled flag). -/
def encodeTraceparent (sc : SpanContext) : List Char :=
  toHexChars 0 2 ++ '-' ::
    (toHexChars sc.traceId 32 ++ '-' ::
      (toHexChars sc.spanId 16 ++ '-' ::
        toHexChars (if sc.sampled then 1 else 0) 2))

/-- Read exactly `w` hex digits from the front of `cs`. -/
def readHex (w : Nat) (cs : List Char) : Option (Nat × List Char) :=
  if (cs.take w).length = w then
    (fromHexChars (cs.take w)).map (fun n => (n, cs.drop w))
  else none

/-- Expect a literal dash separator. -/
def expectDash : List Char → Option (List Char)
  | '-' :: rest => some rest
  | _ => none

/-- Modelled from the spec: parsing of a version-00 `traceparent` header
by the W3C trace-context propagator's Extract; an unparsable header or an
invalid (zero) id yields nothing, so extraction leaves the context
untouched in that case. -/
def decodeTraceparent (cs : List Char) : Option SpanContext := do
  let (ver, cs) ← readHex 2 cs
  let cs ← expectDash cs
  let (tid, cs) ← readHex 32 cs
  let cs ← expectDash cs
  let (sid, cs) ← readHex 16 cs
  let cs ← expectDash cs
  let (flags, cs) ← readHex 2 cs
  if ver = 0 ∧ cs = [] ∧ tid ≠ 0 ∧ sid ≠ 0 then
    some ⟨tid, sid, flags % 2 = 1⟩
  else none

/-- The two states of the package-level tracer variable: the no-op tracer
it starts as, or a tracer obtained from an SDK tracer provider by
`InitTracing`. -/
inductive Tracer where
  | noop
  | sdk
deriving DecidableEq

/-- The initial value of the package-level `tracer` variable: a tracer
from the no-op tracer provider (`noop.NewTracerProvider().Tracer("noop")`),
in effect until `InitTracing` replaces it. -/
def tracer : Tracer := Tracer.noop

/-- Span status codes, in the order of the `codes` package (Unset = 0,
Error = 1, Ok = 2); `StatusCode` in the source aliases these. -/
inductive StatusCode where
  | unset
  | error
  | ok
deriving DecidableEq

/-- Numeric value of a status code (`codes.Code`). -/
def StatusCode.toNat : StatusCode → Nat
  | .unset => 0
  | .error => 1
  | .ok => 2

/-- A span's status: code plus description. -/
structure SpanStatus where
  code : StatusCode
  description : String
deriving DecidableEq

/-- A timestamped span event: name plus attributes. -/
structure SpanEvent where
  name : String
  attrs : List Attribute.Attr
deriving DecidableEq

/-- A Go `error` value, reduced to the message `Error()` returns. -/
structure GoError where
  msg : String
deriving DecidableEq

/-- The observable state of a span handle returned by the facade: the
underlying SDK span is either the no-op span (`isNoop`) which records
nothing, or a recording span with a context, a parent, events, a status
and attributes. -/
structure SpanData where
  name : String
  sc : SpanContext
  parent : Option SpanContext
  isNoop : Bool
  events : List SpanEvent
  status : SpanStatus
  attrs : List Attribute.Attr
  ended : Bool
deriving DecidableEq

/-- Modelled from the spec: the SDK recording span's SetStatus, per the
underlying tracing convention — a status of lower precedence than the
current one is ignored, and the description is only kept when the code is
Error (it is discarded for Ok and Unset). -/
def recordingSetStatus (st : SpanStatus) (code : StatusCode) (description : String) : SpanStatus :=
  if st.code.toNat > code.toNat then st
  else ⟨code, if code = .error then description else ""⟩

/-- `Span.AddEvent`: adds a named event with attributes; the no-op span
records nothing. -/
def Span.AddEvent (s : SpanData) (name : String) (attrs : List Attribute.Attr) : SpanData :=
  if s.isNoop then s else { s with events := s.events ++ [⟨name, attrs⟩] }

/-- `Span.RecordError`: attaches an `exception` event carrying the error
message; status is not altered. -/
def Span.RecordError (s : SpanData) (err : GoError) : SpanData :=
  if s.isNoop then s
  else { s with events := s.events ++ [⟨"exception", [⟨"exception.message", .string err.msg⟩]⟩] }

/-- `Span.SetStatus`: forwards code and description to the underlying
span's SetStatus. -/
def Span.SetStatus (s : SpanData) (code : StatusCode) (description : String) : SpanData :=
  if s.isNoop then s else { s with status := recordingSetStatus s.status code description }

/-- `Span.RecordErrorAndSetStatus`: RecordError followed by
SetStatus(Error, err.Error()). -/
def Span.RecordErrorAndSetStatus (s : SpanData) (err : GoError) : SpanData :=
  Span.SetStatus (Span.RecordError s err) .error err.msg

/-- `Span.SetOk`: SetStatus(Ok, ""). -/
def Span.SetOk (s : SpanData) : SpanData :=
  Span.SetStatus s .ok ""

/-- `Span.SetAttributes`: merges attributes into the span. -/
def Span.SetAttributes (s : SpanData) (attrs : List Attribute.Attr) : SpanData :=
  if s.isNoop then s else { s with attrs := s.attrs ++ attrs }

/-- `Span.End`: finalizes the span; a recording span is appended to the
exported-span list, the no-op span exports nothing. -/
def Span.End (s : SpanData) (exported : List SpanData) : List SpanData :=
  if s.isNoop then exported else exported ++ [{ s with ended := true }]

/-- `newSpan`: starts a span through the package tracer.  The no-op
tracer (modelled from the spec) yields a span handle that records and
exports nothing.  The SDK tracer starts a child of the valid span context
carried by `ctx` (root otherwise); `freshTraceId`/`freshSpanId` stand for
the ids the SDK draws for a root trace and for the new span. -/
def newSpan (tr : Tracer) (freshTraceId freshSpanId : Nat) (ctx : GoContext)
    (name : String) (attrs : List Attribute.Attr) : GoContext × SpanData :=
  match tr with
  | .noop =>
    (ctx, ⟨name, ⟨0, 0, false⟩, none, true, [], ⟨.unset, ""⟩, [], false⟩)
  | .sdk =>
    let parent : Option SpanContext :=
      match ctx with
      | some sc => if sc.isValid then some sc else none
      | none => none
    let sc : SpanContext :=
      ⟨match parent with | some p => p.traceId | none => freshTraceId,
       freshSpanId,
       match parent with | some p => p.sampled | none => true⟩
    (some sc, ⟨name, sc, parent, false, [], ⟨.unset, ""⟩, attrs, false⟩)

/-- `NewSpan`: public wrapper over `newSpan`. -/
def NewSpan (tr : Tracer) (freshTraceId freshSpanId : Nat) (ctx : GoContext)
    (name : String) (attrs : List Attribute.Attr) : GoContext × SpanData :=
  newSpan tr freshTraceId freshSpanId ctx name attrs

/-- `TraceHeaders`: injects the context's span context through the W3C
trace-context propagator into a string map; nothing is written for an
absent or invalid span context. -/
def TraceHeaders (ctx : GoContext) : List (String × String) :=
  match ctx with
  | some sc =>
    if sc.isValid then [("traceparent", String.mk (encodeTraceparent sc))] else []
  | none => []

/-- `NewChildSpan`: extracts a remote parent span context from the
carrier's `traceparent` entry (leaving the context untouched when the
header is absent or unparsable), then behaves as `NewSpan`. -/
def NewChildSpan (tr : Tracer) (freshTraceId freshSpanId : Nat) (ctx : GoContext)
    (carrier : List (String × String)) (name : String) (attrs : List Attribute.Attr) :
    GoContext × SpanData :=
  let ctx :=
    match carrier.lookup "traceparent" with
    | some header =>
      match decodeTraceparent header.data with
      | some sc => some sc
      | none => ctx
    | none => ctx
  newSpan tr freshTraceId freshSpanId ctx name attrs

end Tracing

/-! ## Package `log` -/

namespace Log

/-- slog log levels used by the facade. -/
inductive LogLevel where
  | debug
  | info
  | warn
  | error
deriving DecidableEq

/-- The numeric slog level (DEBUG = -4, INFO = 0, WARN = 4, ERROR = 8). -/
def LogLevel.toInt : LogLevel → Int
  | .debug => -4
  | .info => 0
  | .warn => 4
  | .error => 8

/-- `toSlogAttr`: an `attribute.Attr` becomes a slog key/value pair via
`slog.Any(key, value.AsInterface())`. -/
def toSlogAttr (a : Attribute.Attr) : String × Attribute.AttrValue :=
  (a.key, a.value)

/-- A structured log record as handed to the configured handlers. -/
structure LogRecord where
  level : LogLevel
  message : String
  attrs : List (String × Attribute.AttrValue)
deriving DecidableEq

/-- `writeLog`'s attribute assembly: the caller's attributes converted to
slog attributes, then a `trace_id` attribute appended when the context
carries a valid span context. -/
def writeLogAttrs (ctx : Tracing.GoContext) (logAttributes : List Attribute.Attr) :
    List (String × Attribute.AttrValue) :=
  let slogAttrs := logAttributes.map toSlogAttr
  match ctx with
  | some sc =>
    if sc.isValid then
      slogAttrs ++ [("trace_id", .string (String.mk (Tracing.toHexChars sc.traceId 32)))]
    else slogAttrs
  | none => slogAttrs

/-- `writeLog` as installed by `InitLogger`: builds the record emitted at
a given level for a message, caller attributes and ambient context. -/
def writeLog (level : LogLevel) (ctx : Tracing.GoContext) (message : String)
    (logAttributes : List Attribute.Attr) : LogRecord :=
  ⟨level, message, writeLogAttrs ctx logAttributes⟩

/-- The `Error` entry point as installed by `InitLogger`: captures a
stack trace, appends it to the caller's attributes as a `stack_trace`
attribute, and writes an ERROR record whose message is the error's
message.  `stack` stands for the captured `debug.Stack()` text. -/
def logError (err : Tracing.GoError) (attributes : List Attribute.Attr) (stack : String)
    (ctx : Tracing.GoContext) : LogRecord :=
  let attributes := attributes ++ [Attribute.New "stack_trace" (.goString stack)]
  writeLog .error ctx err.msg attributes

/-- Modelled from the spec: the underlying slog level parser used by
`NewJSONHandler` — DEBUG/INFO/WARN/ERROR parse to their levels
(case-sensitively), any other string is an error. -/
def levelParse (s : String) : Option Int :=
  if s = "DEBUG" then some (-4)
  else if s = "INFO" then some 0
  else if s = "WARN" then some 4
  else if s = "ERROR" then some 8
  else none

/-- The observable state of the handler `NewJSONHandler` returns: the
configured minimum level and the resource attributes baked into every
record. -/
structure JSONHandler where
  minLevel : Int
  resourceAttrs : List Attribute.Attr
deriving DecidableEq

/-- `NewJSONHandler`: parses the level name through the underlying level
parser (an invalid name is returned as an error) and wraps a JSON handler
configured with that level and the resource attributes. -/
def NewJSONHandler (resourceAttrs : List Attribute.Attr) (logLevel : String) :
    Except String JSONHandler :=
  match levelParse logLevel with
  | none => .error ("slog: level string " ++ logLevel ++ ": unknown name")
  | some l => .ok ⟨l, resourceAttrs⟩

/-- A record as written to the handler's writer, with the baked-in
resource attributes prepended. -/
def bakeRecord (h : JSONHandler) (r : LogRecord) : LogRecord :=
  { r with attrs := h.resourceAttrs.map toSlogAttr ++ r.attrs }

/-- Modelled from the spec: the JSON handler's treatment of one record —
a record below the configured level is dropped before reaching the
writer, a record at or above it is written as exactly one line. -/
def handlerHandle (h : JSONHandler) (r : LogRecord) (written : List LogRecord) :
    List LogRecord :=
  if h.minLevel ≤ r.level.toInt then written ++ [bakeRecord h r] else written

end Log

/-! ## Package `metrics` -/

namespace Metrics

/-- A handle on an underlying SDK instrument, identified for the model by
a number. -/
structure MetricInstrument where
  id : Nat
deriving DecidableEq

/-- A handle on an SDK meter, kept by the observable wrappers so they can
register callbacks. -/
structure Meter where
  id : Nat
deriving DecidableEq

/-- `newAttributeSet`: the attribute list of a measurement is collapsed
to an attribute set — duplicate keys keep the last value. -/
def newAttributeSet (attrs : List Attribute.Attr) : List (String × Attribute.AttrValue) :=
  attrs.foldl (fun acc a => acc.filter (fun kv => kv.1 ≠ a.key) ++ [(a.key, a.value)]) []

/-- The value carried by one data point. -/
inductive MetricValue where
  | i (v : Int)
  | f (v : Attribute.GoFloat64)
deriving DecidableEq

/-- One data point produced by an Add/Record/Observe call: the instrument
(or observer) it was reported against, the value, and the attribute set
that keys the series. -/
structure Measurement where
  instrument : Nat
  value : MetricValue
  attrSet : List (String × Attribute.AttrValue)
deriving DecidableEq

/-- The process-wide log of data points, standing for what the configured
reader would collect. -/
abbrev DataPoints := List Measurement

/-- `Int64Counter` wraps an SDK int64 counter; a wrapper reference is a
Go pointer, so an uninitialized field is `none`. -/
structure Int64Counter where
  int64Counter : MetricInstrument
deriving DecidableEq

/-- `Float64Counter` wraps an SDK float64 counter. -/
structure Float64Counter where
  float64Counter : MetricInstrument
deriving DecidableEq

/-- `Int64UpDownCounter` wraps an SDK int64 up/down counter. -/
structure Int64UpDownCounter where
  int64UpDownCounter : MetricInstrument
deriving DecidableEq

/-- `Float64UpDownCounter` wraps an SDK float64 up/down counter. -/
structure Float64UpDownCounter where
  float64UpDownCounter : MetricInstrument
deriving DecidableEq

/-- `Int64ObservableCounter` wraps an SDK int64 observable counter plus
the meter used to register callbacks. -/
structure Int64ObservableCounter where
  int64ObservableCounter : MetricInstrument
  meter : Meter
deriving DecidableEq

/-- `Float64ObservableCounter` wraps an SDK float64 observable counter
plus its meter. -/
structure Float64ObservableCounter where
  float64ObservableCounter : MetricInstrument
  meter : Meter
deriving DecidableEq

/-- `Int64ObservableUpDownCounter` wraps an SDK int64 observable up/down
counter plus its meter. -/
structure Int64ObservableUpDownCounter where
  int64ObservableUpDownCounter : MetricInstrument
  meter : Meter
deriving DecidableEq

/-- `Float64ObservableUpDownCounter` wraps an SDK float64 observable
up/down counter plus its meter. -/
structure Float64ObservableUpDownCounter where
  float64ObservableUpDownCounter : MetricInstrument
  meter : Meter
deriving DecidableEq

/-- `Int64Gauge` wraps an SDK int64 gauge. -/
structure Int64Gauge where
  int64Gauge : MetricInstrument
deriving DecidableEq

/-- `Float64Gauge` wraps an SDK float64 gauge. -/
structure Float64Gauge where
  float64Gauge : MetricInstrument
deriving DecidableEq

/-- `Int64ObservableGauge` wraps an SDK int64 observable gauge plus its
meter. -/
structure Int64ObservableGauge where
  int64ObservableGauge : MetricInstrument
  meter : Meter
deriving DecidableEq

/-- `Float64ObservableGauge` wraps an SDK float64 observable gauge plus
its meter. -/
structure Float64ObservableGauge where
  float64ObservableGauge : MetricInstrument
  meter : Meter
deriving DecidableEq

/-- `Int64Histogram` wraps an SDK int64 histogram. -/
structure Int64Histogram where
  int64Histogram : MetricInstrument
deriving DecidableEq

/-- `Float64Histogram` wraps an SDK float64 histogram. -/
structure Float64Histogram where
  float64Histogram : MetricInstrument
deriving DecidableEq

/-- `Int64Counter.Add`: the method's receiver is a possibly nil pointer;
a nil receiver is guarded to a no-op, otherwise a data point is recorded
against the wrapped counter. -/
def Int64Counter.Add (c : Option Int64Counter) (_ctx : Tracing.GoContext) (value : Int)
    (attrs : List Attribute.Attr) (st : DataPoints) : DataPoints :=
  match c with
  | none => st
  | some c => st ++ [⟨c.int64Counter.id, .i value, newAttributeSet attrs⟩]

/-- `Float64Counter.Add`, nil-guarded like all wrapper methods. -/
def Float64Counter.Add (c : Option Float64Counter) (_ctx : Tracing.GoContext)
    (value : Attribute.GoFloat64) (attrs : List Attribute.Attr) (st : DataPoints) : DataPoints :=
  match c with
  | none => st
  | some c => st ++ [⟨c.float64Counter.id, .f value, newAttributeSet attrs⟩]

/-- `Int64UpDownCounter.Add`, nil-guarded. -/
def Int64UpDownCounter.Add (c : Option Int64UpDownCounter) (_ctx : Tracing.GoContext)
    (value : Int) (attrs : List Attribute.Attr) (st : DataPoints) : DataPoints :=
  match c with
  | none => st
  | some c => st ++ [⟨c.int64UpDownCounter.id, .i value, newAttributeSet attrs⟩]

/-- `Float64UpDownCounter.Add`, nil-guarded. -/
def Float64UpDownCounter.Add (c : Option Float64UpDownCounter) (_ctx : Tracing.GoContext)
    (value : Attribute.GoFloat64) (attrs : List Attribute.Attr) (st : DataPoints) : DataPoints :=
  match c with
  | none => st
  | some c => st ++ [⟨c.float64UpDownCounter.id, .f value, newAttributeSet attrs⟩]

/-- `Int64Gauge.Record`, nil-guarded. -/
def Int64Gauge.Record (g : Option Int64Gauge) (_ctx : Tracing.GoContext) (value : Int)
    (attrs : List Attribute.Attr) (st : DataPoints) : DataPoints :=
  match g with
  | none => st
  | some g => st ++ [⟨g.int64Gauge.id, .i value, newAttributeSet attrs⟩]

/-- `Float64Gauge.Record`, nil-guarded. -/
def Float64Gauge.Record (g : Option Float64Gauge) (_ctx : Tracing.GoContext)
    (value : Attribute.GoFloat64) (attrs : List Attribute.Attr) (st : DataPoints) : DataPoints :=
  match g with
  | none => st
  | some g => st ++ [⟨g.float64Gauge.id, .f value, newAttributeSet attrs⟩]

/-- `Int64Histogram.Record`, nil-guarded. -/
def Int64Histogram.Record (h : Option Int64Histogram) (_ctx : Tracing.GoContext) (value : Int)
    (attrs : List Attribute.Attr) (st : DataPoints) : DataPoints :=
  match h with
  | none => st
  | some h => st ++ [⟨h.int64Histogram.id, .i value, newAttributeSet attrs⟩]

/-- `Float64Histogram.Record`, nil-guarded. -/
def Float64Histogram.Record (h : Option Float64Histogram) (_ctx : Tracing.GoContext)
    (value : Attribute.GoFloat64) (attrs : List Attribute.Attr) (st : DataPoints) : DataPoints :=
  match h with
  | none => st
  | some h => st ++ [⟨h.float64Histogram.id, .f value, newAttributeSet attrs⟩]

/-- `Int64ObservableCounter.Observe`: a nil receiver skips even the
observer call, so no data point is reported. -/
def Int64ObservableCounter.Observe (c : Option Int64ObservableCounter) (observer : Nat)
    (value : Int) (attrs : List Attribute.Attr) (st : DataPoints) : DataPoints :=
  match c with
  | none => st
  | some _ => st ++ [⟨observer, .i value, newAttributeSet attrs⟩]

/-- `Float64ObservableCounter.Observe`, nil-guarded. -/
def Float64ObservableCounter.Observe (c : Option Float64ObservableCounter) (observer : Nat)
    (value : Attribute.GoFloat64) (attrs : List Attribute.Attr) (st : DataPoints) : DataPoints :=
  match c with
  | none => st
  | some _ => st ++ [⟨observer, .f value, newAttributeSet attrs⟩]

/-- `Int64ObservableUpDownCounter.Observe`, nil-guarded. -/
def Int64ObservableUpDownCounter.Observe (c : Option Int64ObservableUpDownCounter)
    (observer : Nat) (value : Int) (attrs : List Attribute.Attr) (st : DataPoints) : DataPoints :=
  match c with
  | none => st
  | some _ => st ++ [⟨observer, .i value, newAttributeSet attrs⟩]

/-- `Float64ObservableUpDownCounter.Observe`, nil-guarded. -/
def Float64ObservableUpDownCounter.Observe (c : Option Float64ObservableUpDownCounter)
    (observer : Nat) (value : Attribute.GoFloat64) (attrs : List Attribute.Attr)
    (st : DataPoints) : DataPoints :=
  match c with
  | none => st
  | some _ => st ++ [⟨observer, .f value, newAttributeSet attrs⟩]

/-- `Int64ObservableGauge.Observe`, nil-guarded. -/
def Int64ObservableGauge.Observe (g : Option Int64ObservableGauge) (observer : Nat)
    (value : Int) (attrs : List Attribute.Attr) (st : DataPoints) : DataPoints :=
  match g with
  | none => st
  | some _ => st ++ [⟨observer, .i value, newAttributeSet attrs⟩]

/-- `Float64ObservableGauge.Observe`, nil-guarded. -/
def Float64ObservableGauge.Observe (g : Option Float64ObservableGauge) (observer : Nat)
    (value : Attribute.GoFloat64) (attrs : List Attribute.Attr) (st : DataPoints) : DataPoints :=
  match g with
  | none => st
  | some _ => st ++ [⟨observer, .f value, newAttributeSet attrs⟩]

/-- A callback registration held by the meter: the meter, the callback
and the instrument it observes. -/
structure CallbackReg where
  meter : Nat
  callback : Nat
  instrument : Nat
deriving DecidableEq

/-- The registrations performed so far. -/
abbrev Registrations := List CallbackReg

/-- `Int64ObservableCounter.RegisterCallback`: a nil receiver returns
`(nil, nil)` without registering; otherwise the meter registers the
callback for the wrapped instrument and hands back a registration. -/
def Int64ObservableCounter.RegisterCallback (c : Option Int64ObservableCounter)
    (callback : Nat) (regs : Registrations) :
    Registrations × Option CallbackReg × Option Tracing.GoError :=
  match c with
  | none => (regs, none, none)
  | some c =>
    let r : CallbackReg := ⟨c.meter.id, callback, c.int64ObservableCounter.id⟩
    (regs ++ [r], some r, none)

/-- `Float64ObservableCounter.RegisterCallback`, nil-guarded. -/
def Float64ObservableCounter.RegisterCallback (c : Option Float64ObservableCounter)
    (callback : Nat) (regs : Registrations) :
    Registrations × Option CallbackReg × Option Tracing.GoError :=
  match c with
  | none => (regs, none, none)
  | some c =>
    let r : CallbackReg := ⟨c.meter.id, callback, c.float64ObservableCounter.id⟩
    (regs ++ [r], some r, none)

/-- `Int64ObservableUpDownCounter.RegisterCallback`, nil-guarded. -/
def Int64ObservableUpDownCounter.RegisterCallback (c : Option Int64ObservableUpDownCounter)
    (callback : Nat) (regs : Registrations) :
    Registrations × Option CallbackReg × Option Tracing.GoError :=
  match c with
  | none => (regs, none, none)
  | some c =>
    let r : CallbackReg := ⟨c.meter.id, callback, c.int64ObservableUpDownCounter.id⟩
    (regs ++ [r], some r, none)

/-- `Float64ObservableUpDownCounter.RegisterCallback`, nil-guarded. -/
def Float64ObservableUpDownCounter.RegisterCallback (c : Option Float64ObservableUpDownCounter)
    (callback : Nat) (regs : Registrations) :
    Registrations × Option CallbackReg × Option Tracing.GoError :=
  match c with
  | none => (regs, none, none)
  | some c =>
    let r : CallbackReg := ⟨c.meter.id, callback, c.float64ObservableUpDownCounter.id⟩
    (regs ++ [r], some r, none)

/-- `Int64ObservableGauge.RegisterCallback`, nil-guarded. -/
def Int64ObservableGauge.RegisterCallback (g : Option Int64ObservableGauge)
    (callback : Nat) (regs : Registrations) :
    Registrations × Option CallbackReg × Option Tracing.GoError :=
  match g with
  | none => (regs, none, none)
  | some g =>
    let r : CallbackReg := ⟨g.meter.id, callback, g.int64ObservableGauge.id⟩
    (regs ++ [r], some r, none)

/-- `Float64ObservableGauge.RegisterCallback`, nil-guarded. -/
def Float64ObservableGauge.RegisterCallback (g : Option Float64ObservableGauge)
    (callback : Nat) (regs : Registrations) :
    Registrations × Option CallbackReg × Option Tracing.GoError :=
  match g with
  | none => (regs, none, none)
  | some g =>
    let r : CallbackReg := ⟨g.meter.id, callback, g.float64ObservableGauge.id⟩
    (regs ++ [r], some r, none)

/-- The identity of a Go pointer value as it passes through the
type-erased `any` global: the concrete pointer type `*T` (a type id) and
the pointed-to struct (an address). -/
structure GoPtr where
  typeId : Nat
  addr : Nat
deriving DecidableEq

/-- The fourteen instrument-wrapper field types `initMetricFields`
recognizes, plus `other` for any field of unrecognized type. -/
inductive FieldKind where
  | int64Counter
  | float64Counter
  | int64UpDownCounter
  | float64UpDownCounter
  | int64ObservableCounter
  | float64ObservableCounter
  | int64ObservableUpDownCounter
  | float64ObservableUpDownCounter
  | int64Gauge
  | float64Gauge
  | int64ObservableGauge
  | float64ObservableGauge
  | int64Histogram
  | float64Histogram
  | other
deriving DecidableEq

/-- One declared field of the user's metrics struct, as reflection sees
it: its declared name and its declared type. -/
structure FieldSpec where
  name : String
  kind : FieldKind
deriving DecidableEq

/-- The meter's instrument factories, abstracted to their outcome: `none`
is success, `some e` is the underlying creation error (duplicate name
with incompatible kind, invalid name, ...). -/
abbrev CreateFn := FieldKind → String → Option String

/-- The error wrapping done by the `newInstrument` helper. -/
def newInstrumentErr (name err : String) : String :=
  "failed to create metric instrument " ++ name ++ ": " ++ err

/-- The field walk of `initMetricFields`: fields of unrecognized type are
skipped, each wrapper field has its instrument created under the field's
declared name, and the first creation failure aborts the walk.  Returns
the error, if any, and the names of the fields that were populated before
it. -/
def initFieldsLoop (create : CreateFn) : List FieldSpec → Option String × List String
  | [] => (none, [])
  | f :: rest =>
    if f.kind = .other then initFieldsLoop create rest
    else
      match create f.kind f.name with
      | some e => (some (newInstrumentErr f.name e), [])
      | none =>
        let (err, populated) := initFieldsLoop create rest
        (err, f.name :: populated)

/-- `initMetricFields`: a nil struct pointer is a no-op; otherwise the
process-wide `metricsInstance` is assigned the struct pointer and then
the fields are walked.  The assignment happens before the walk, so it is
in place even when a field's instrument creation fails.  Takes and
returns the `metricsInstance` global; also returns the error and the
populated field names. -/
def initMetricFields (create : CreateFn) (m : Option (GoPtr × List FieldSpec))
    (metricsInstance : Option GoPtr) : Option GoPtr × Option String × List String :=
  match m with
  | none => (metricsInstance, none, [])
  | some (p, fields) =>
    let metricsInstance := some p
    let (err, populated) := initFieldsLoop create fields
    (metricsInstance, err, populated)

/-- `Metrics[T]()`: nil global gives nil; a stored instance is returned
exactly when the type assertion to `*T` succeeds, i.e. when `T`'s pointer
type is the stored pointer's concrete type. -/
def Metrics (typeId : Nat) (metricsInstance : Option GoPtr) : Option GoPtr :=
  match metricsInstance with
  | none => none
  | some m => if m.typeId = typeId then some m else none

/-- `InitMetrics`: when the endpoint env var is set, an exporter is built
first and its failure returns immediately without touching the global;
then `initMetricFields` runs, whose error is likewise returned.  The
first component is the updated `metricsInstance` global; `.ok` stands for
the provider's shutdown function being returned. -/
def InitMetrics (endpointSet : Bool) (exporterErr : Option String) (create : CreateFn)
    (m : Option (GoPtr × List FieldSpec)) (metricsInstance : Option GoPtr) :
    Option GoPtr × Except String Unit :=
  match endpointSet, exporterErr with
  | true, some e => (metricsInstance, .error e)
  | _, _ =>
    let (metricsInstance, err, _) := initMetricFields create m metricsInstance
    match err with
    | some e => (metricsInstance, .error e)
    | none => (metricsInstance, .ok ())

end Metrics

/-! ## Package `otel` (root `gotel.Init`) -/

namespace Otel

/-- The three telemetry subsystems the unified initializer sequences. -/
inductive Subsystem where
  | tracing
  | metrics
  | logging
deriving DecidableEq

/-- A subsystem teardown function, reduced to its observables: which
subsystem it shuts down and the error it returns when invoked (`none`
for a clean shutdown). -/
structure Teardown where
  sub : Subsystem
  err : Option String
deriving DecidableEq

/-- `otel.Init`: sequences tracing, then metrics, then logging.  Each
subsystem's initializer outcome is abstracted to `Except`: an error, or
the teardown behaviour (the error that teardown will later return).  When
a step fails, the teardowns of the previously successful steps are
invoked — recorded in order in the first component, their own errors
discarded — and the step's error is returned with no teardown.  On
success nothing is torn down and the composed teardown's three captured
closures are returned (logger, metrics, tracing).  Whether a log handler
was supplied only changes the `InitLogger` call's arguments, which is
folded into `loggerRes`. -/
def Init (tracingRes metricsRes loggerRes : Except String (Option String)) :
    List Subsystem × Except String (Teardown × Teardown × Teardown) :=
  match tracingRes with
  | .error e => ([], .error e)
  | .ok tErr =>
    let shutdownTracing : Teardown := ⟨.tracing, tErr⟩
    match metricsRes with
    | .error e => ([shutdownTracing.sub], .error e)
    | .ok mErr =>
      let shutdownMetrics : Teardown := ⟨.metrics, mErr⟩
      match loggerRes with
      | .error e => ([shutdownMetrics.sub, shutdownTracing.sub], .error e)
      | .ok lErr =>
        let shutdownLogger : Teardown := ⟨.logging, lErr⟩
        ([], .ok (shutdownLogger, shutdownMetrics, shutdownTracing))

/-- The composed shutdown closure returned by a successful `otel.Init`:
invokes the logger, metrics and tracing teardowns in that order, never
short-circuiting, and keeps the first error encountered (a later error
is dropped when `firstErr` is already set). -/
def composedShutdown (shutdownLogger shutdownMetrics shutdownTracing : Teardown) :
    List Subsystem × Option String :=
  let invoked := [shutdownLogger.sub]
  let firstErr := shutdownLogger.err
  let invoked := invoked ++ [shutdownMetrics.sub]
  let firstErr :=
    match shutdownMetrics.err, firstErr with
    | some e, none => some e
    | _, f => f
  let invoked := invoked ++ [shutdownTracing.sub]
  let firstErr :=
    match shutdownTracing.err, firstErr with
    | some e, none => some e
    | _, f => f
  (invoked, firstErr)

end Otel

/-! ## Helper lemmas: hex encoding round-trip -/

namespace Tracing

theorem hexCharVal_hexDigitChar : ∀ d, d < 16 → hexCharVal (hexDigitChar d) = some d := by
  decide

theorem toHexChars_length : ∀ (w n : Nat), (toHexChars n w).length = w := by
  intro w
  induction w with
  | zero => intro n; rfl
  | succ w ih => intro n; simp [toHexChars, ih]

theorem fromHexAux_append (acc : Option Nat) (xs ys : List Char) :
    fromHexAux acc (xs ++ ys) = fromHexAux (fromHexAux acc xs) ys :=
  List.foldl_append _ _ _ _

theorem fromHexAux_toHexChars : ∀ (w a n : Nat), n < 16 ^ w →
    fromHexAux (some a) (toHexChars n w) = some (a * 16 ^ w + n) := by
  intro w
  induction w with
  | zero =>
    intro a n h
    interval_cases n
    simp [toHexChars, fromHexAux]
  | succ w ih =>
    intro a n h
    have hdiv : n / 16 < 16 ^ w := by
      apply Nat.div_lt_of_lt_mul
      calc n < 16 ^ (w + 1) := h
        _ = 16 * 16 ^ w := by ring
    have hd : hexCharVal (hexDigitChar (n % 16)) = some (n % 16) :=
      hexCharVal_hexDigitChar _ (Nat.mod_lt _ (by norm_num))
    rw [toHexChars, fromHexAux_append, ih _ _ hdiv]
    simp only [fromHexAux, List.foldl, fromHexStep, hd]
    congr 1
    calc (a * 16 ^ w + n / 16) * 16 + n % 16
        = a * (16 ^ w * 16) + (16 * (n / 16) + n % 16) := by ring
      _ = a * 16 ^ (w + 1) + n := by rw [Nat.div_add_mod, ← pow_succ]

theorem fromHexChars_toHexChars (w n : Nat) (h : n < 16 ^ w) :
    fromHexChars (toHexChars n w) = some n := by
  have := fromHexAux_toHexChars w 0 n h
  simpa [fromHexChars] using this

theorem readHex_toHexChars (w n : Nat) (rest : List Char) (h : n < 16 ^ w) :
    readHex w (toHexChars n w ++ rest) = some (n, rest) := by
  have hlen : (toHexChars n w).length = w := toHexChars_length w n
  unfold readHex
  rw [List.take_left' hlen, List.drop_left' hlen, hlen, fromHexChars_toHexChars w n h]
  simp

theorem readHex_toHexChars_nil (w n : Nat) (h : n < 16 ^ w) :
    readHex w (toHexChars n w) = some (n, []) := by
  have := readHex_toHexChars w n [] h
  simpa using this

theorem decodeTraceparent_encodeTraceparent (sc : SpanContext)
    (h1 : 0 < sc.traceId) (h2 : sc.traceId < 16 ^ 32)
    (h3 : 0 < sc.spanId) (h4 : sc.spanId < 16 ^ 16) :
    decodeTraceparent (encodeTraceparent sc) = some sc := by
  obtain ⟨tid, sid, sampled⟩ := sc
  simp only at h1 h2 h3 h4
  have hflag : (if sampled then 1 else 0) < 16 ^ 2 := by
    cases sampled <;> norm_num
  rw [encodeTraceparent]
  simp only
  rw [decodeTraceparent]
  rw [readHex_toHexChars 2 0 _ (by norm_num)]
  simp only [Option.bind_eq_bind, Option.some_bind, expectDash]
  rw [readHex_toHexChars 32 tid _ h2]
  simp only [Option.some_bind, expectDash]
  rw [readHex_toHexChars 16 sid _ h4]
  simp only [Option.some_bind, expectDash]
  rw [readHex_toHexChars_nil 2 _ hflag]
  simp only [Option.some_bind]
  have ht : tid ≠ 0 := by omega
  have hs : sid ≠ 0 := by omega
  cases sampled <;> simp [ht, hs]

end Tracing

/-! ## Claims -/

/-- Claim C6: `attribute.New(key, value)` is total — every key and value
produce an attribute with no error path — and dispatches on the value's
dynamic kind in the precedence bool, []bool, float64, []float64, int,
[]int, int64, []int64, string, []string, then fmt.Stringer, then the
generic `%v` fallback; every supported scalar or list kind stores the
input exactly (a machine `int` widened to int64), and a stringer or
unsupported kind stores the value's string formatting. -/
theorem claim_C6_attribute_new_dispatch (key : String) :
    (∀ b, Attribute.New key (.goBool b) = ⟨key, .bool b⟩) ∧
    (∀ l, Attribute.New key (.goBoolSlice l) = ⟨key, .boolSlice l⟩) ∧
    (∀ v, Attribute.New key (.goFloat64 v) = ⟨key, .float64 v⟩) ∧
    (∀ l, Attribute.New key (.goFloat64Slice l) = ⟨key, .float64Slice l⟩) ∧
    (∀ v, Attribute.New key (.goInt v) = ⟨key, .int64 v⟩) ∧
    (∀ l, Attribute.New key (.goIntSlice l) = ⟨key, .int64Slice l⟩) ∧
    (∀ v, Attribute.New key (.goInt64 v) = ⟨key, .int64 v⟩) ∧
    (∀ l, Attribute.New key (.goInt64Slice l) = ⟨key, .int64Slice l⟩) ∧
    (∀ s, Attribute.New key (.goString s) = ⟨key, .string s⟩) ∧
    (∀ l, Attribute.New key (.goStringSlice l) = ⟨key, .stringSlice l⟩) ∧
    (∀ s, Attribute.New key (.stringer s) = ⟨key, .string s⟩) ∧
    (∀ s, Attribute.New key (.otherValue s) = ⟨key, .string s⟩) :=
  ⟨fun _ => rfl, fun _ => rfl, fun _ => rfl, fun _ => rfl, fun _ => rfl, fun _ => rfl,
   fun _ => rfl, fun _ => rfl, fun _ => rfl, fun _ => rfl, fun _ => rfl, fun _ => rfl⟩

/-- Claim C5: for every one of the 14 instrument-wrapper kinds, calling
Add, Record, Observe or RegisterCallback through an uninitialized
(nil/zero) wrapper reference, with any context, value and attribute list,
does not fail and produces no data point: the data-point log (and, for
RegisterCallback, the registration list) is unchanged and RegisterCallback
returns `(nil, nil)`. -/
theorem claim_C5_nil_wrapper_noop :
    (∀ ctx v attrs st, Metrics.Int64Counter.Add none ctx v attrs st = st) ∧
    (∀ ctx v attrs st, Metrics.Float64Counter.Add none ctx v attrs st = st) ∧
    (∀ ctx v attrs st, Metrics.Int64UpDownCounter.Add none ctx v attrs st = st) ∧
    (∀ ctx v attrs st, Metrics.Float64UpDownCounter.Add none ctx v attrs st = st) ∧
    (∀ ctx v attrs st, Metrics.Int64Gauge.Record none ctx v attrs st = st) ∧
    (∀ ctx v attrs st, Metrics.Float64Gauge.Record none ctx v attrs st = st) ∧
    (∀ ctx v attrs st, Metrics.Int64Histogram.Record none ctx v attrs st = st) ∧
    (∀ ctx v attrs st, Metrics.Float64Histogram.Record none ctx v attrs st = st) ∧
    (∀ ob v attrs st, Metrics.Int64ObservableCounter.Observe none ob v attrs st = st) ∧
    (∀ ob v attrs st, Metrics.Float64ObservableCounter.Observe none ob v attrs st = st) ∧
    (∀ ob v attrs st, Metrics.Int64ObservableUpDownCounter.Observe none ob v attrs st = st) ∧
    (∀ ob v attrs st, Metrics.Float64ObservableUpDownCounter.Observe none ob v attrs st = st) ∧
    (∀ ob v attrs st, Metrics.Int64ObservableGauge.Observe none ob v attrs st = st) ∧
    (∀ ob v attrs st, Metrics.Float64ObservableGauge.Observe none ob v attrs st = st) ∧
    (∀ cb regs, Metrics.Int64ObservableCounter.RegisterCallback none cb regs = (regs, none, none)) ∧
    (∀ cb regs, Metrics.Float64ObservableCounter.RegisterCallback none cb regs = (regs, none, none)) ∧
    (∀ cb regs, Metrics.Int64ObservableUpDownCounter.RegisterCallback none cb regs = (regs, none, none)) ∧
    (∀ cb regs, Metrics.Float64ObservableUpDownCounter.RegisterCallback none cb regs = (regs, none, none)) ∧
    (∀ cb regs, Metrics.Int64ObservableGauge.RegisterCallback none cb regs = (regs, none, none)) ∧
    (∀ cb regs, Metrics.Float64ObservableGauge.RegisterCallback none cb regs = (regs, none, none)) :=
  ⟨fun _ _ _ _ => rfl, fun _ _ _ _ => rfl, fun _ _ _ _ => rfl, fun _ _ _ _ => rfl,
   fun _ _ _ _ => rfl, fun _ _ _ _ => rfl, fun _ _ _ _ => rfl, fun _ _ _ _ => rfl,
   fun _ _ _ _ => rfl, fun _ _ _ _ => rfl, fun _ _ _ _ => rfl, fun _ _ _ _ => rfl,
   fun _ _ _ _ => rfl, fun _ _ _ _ => rfl, fun _ _ => rfl, fun _ _ => rfl,
   fun _ _ => rfl, fun _ _ => rfl, fun _ _ => rfl, fun _ _ => rfl⟩

/-- Claim C3: on every properly constructed (recording, non-noop) span
and for every description string, `SetStatus(StatusOk, description)`
leaves the span with status code Ok and an empty description — the
description is always discarded for Ok. -/
theorem claim_C3_setstatus_ok_discards_description (s : Tracing.SpanData)
    (description : String) (h : s.isNoop = false) :
    (Tracing.Span.SetStatus s .ok description).status = ⟨.ok, ""⟩ := by
  obtain ⟨name, sc, parent, isNoop, events, status, attrs, ended⟩ := s
  simp only at h
  subst h
  obtain ⟨code, descr⟩ := status
  cases code <;>
    simp [Tracing.Span.SetStatus, Tracing.recordingSetStatus, Tracing.StatusCode.toNat]

/-- Witness for claim C3: a concrete fresh span and a non-empty
description. -/
theorem claim_C3_setstatus_ok_witness :
    (Tracing.Span.SetStatus
        ⟨"test-span", ⟨1, 2, true⟩, none, false, [], ⟨.unset, ""⟩, [], false⟩
        .ok "operation completed").status = ⟨.ok, ""⟩ :=
  claim_C3_setstatus_ok_discards_description _ "operation completed" rfl

/-- Claim C10: before any successful `InitTracing`, the package-level
tracer variable holds the no-op tracer, so `NewSpan` (with any context,
name and attributes) returns a usable span handle on which AddEvent,
SetStatus, SetAttributes, RecordError and End are safe no-ops that export
no span. -/
theorem claim_C10_noop_tracer_before_init (ftid fsid : Nat) (ctx : Tracing.GoContext)
    (name : String) (attrs : List Attribute.Attr) :
    (Tracing.NewSpan Tracing.tracer ftid fsid ctx name attrs).2.isNoop = true ∧
    (∀ n a, Tracing.Span.AddEvent (Tracing.NewSpan Tracing.tracer ftid fsid ctx name attrs).2 n a
      = (Tracing.NewSpan Tracing.tracer ftid fsid ctx name attrs).2) ∧
    (∀ c d, Tracing.Span.SetStatus (Tracing.NewSpan Tracing.tracer ftid fsid ctx name attrs).2 c d
      = (Tracing.NewSpan Tracing.tracer ftid fsid ctx name attrs).2) ∧
    (∀ a, Tracing.Span.SetAttributes (Tracing.NewSpan Tracing.tracer ftid fsid ctx name attrs).2 a
      = (Tracing.NewSpan Tracing.tracer ftid fsid ctx name attrs).2) ∧
    (∀ e, Tracing.Span.RecordError (Tracing.NewSpan Tracing.tracer ftid fsid ctx name attrs).2 e
      = (Tracing.NewSpan Tracing.tracer ftid fsid ctx name attrs).2) ∧
    (∀ exported, Tracing.Span.End (Tracing.NewSpan Tracing.tracer ftid fsid ctx name attrs).2 exported
      = exported) :=
  ⟨rfl, fun _ _ => rfl, fun _ _ => rfl, fun _ => rfl, fun _ => rfl, fun _ => rfl⟩

/-- Claim C2, counterexample: with one caller attribute, the emitted
record's attribute list is the caller attribute followed by the
stack-trace attribute — not, as the claim states, the stack-trace
attribute followed by the caller attribute. -/
theorem claim_C2_error_order_counterexample :
    (Log.logError ⟨"boom"⟩ [Attribute.New "k" (.goString "v")] "stack data" none).attrs
      = [("k", Attribute.AttrValue.string "v"),
         ("stack_trace", Attribute.AttrValue.string "stack data")] ∧
    ¬ ((Log.logError ⟨"boom"⟩ [Attribute.New "k" (.goString "v")] "stack data" none).attrs
      = [("stack_trace", Attribute.AttrValue.string "stack data"),
         ("k", Attribute.AttrValue.string "v")]) :=
  ⟨rfl, by decide⟩

/-- Claim C2, amended: for every error, attribute list, captured stack
and context, `Error` emits an ERROR-level record whose message equals the
error's message and which always contains a `stack_trace` attribute — but
the stack-trace attribute is appended after the caller-supplied
attributes (followed by the automatic `trace_id` when the context carries
a valid span context), not before them. -/
theorem claim_C2_error_record_amended (err : Tracing.GoError) (attrs : List Attribute.Attr)
    (stack : String) (ctx : Tracing.GoContext) :
    (Log.logError err attrs stack ctx).message = err.msg ∧
    (Log.logError err attrs stack ctx).level = .error ∧
    ("stack_trace", Attribute.AttrValue.string stack) ∈ (Log.logError err attrs stack ctx).attrs ∧
    (Log.logError err attrs stack ctx).attrs =
      attrs.map Log.toSlogAttr ++ [("stack_trace", Attribute.AttrValue.string stack)] ++
        (match ctx with
         | some sc =>
           if sc.isValid then
             [("trace_id", Attribute.AttrValue.string
                (String.mk (Tracing.toHexChars sc.traceId 32)))]
           else []
         | none => []) := by
  have hattrs : (Log.logError err attrs stack ctx).attrs =
      attrs.map Log.toSlogAttr ++ [("stack_trace", Attribute.AttrValue.string stack)] ++
        (match ctx with
         | some sc =>
           if sc.isValid then
             [("trace_id", Attribute.AttrValue.string
                (String.mk (Tracing.toHexChars sc.traceId 32)))]
           else []
         | none => []) := by
    cases ctx with
    | none =>
      simp [Log.logError, Log.writeLog, Log.writeLogAttrs, Log.toSlogAttr, Attribute.New]
    | some sc =>
      by_cases hv : sc.isValid <;>
        simp [Log.logError, Log.writeLog, Log.writeLogAttrs, Log.toSlogAttr, Attribute.New, hv]
  refine ⟨rfl, rfl, ?_, hattrs⟩
  rw [hattrs]
  simp

/-- Claim C4: `Metrics[T]()` is empty when nothing was stored; after a
successful `InitMetrics[T]` on a struct pointer it returns exactly that
pointer; and retrieval at any type whose pointer type differs from the
stored instance's concrete type is empty. -/
theorem claim_C4_metrics_retrieval (tid utid : Nat) (p : Metrics.GoPtr)
    (fields : List Metrics.FieldSpec) (create : Metrics.CreateFn)
    (endpointSet : Bool) (exporterErr : Option String) (st0 : Option Metrics.GoPtr) :
    Metrics.Metrics tid none = none ∧
    ((Metrics.InitMetrics endpointSet exporterErr create (some (p, fields)) st0).2 = .ok () →
      (Metrics.InitMetrics endpointSet exporterErr create (some (p, fields)) st0).1 = some p ∧
      Metrics.Metrics p.typeId
        (Metrics.InitMetrics endpointSet exporterErr create (some (p, fields)) st0).1 = some p) ∧
    (utid ≠ p.typeId → Metrics.Metrics utid (some p) = none) := by
  refine ⟨rfl, ?_, ?_⟩
  · intro hok
    rcases hl : Metrics.initFieldsLoop create fields with ⟨err, populated⟩
    cases endpointSet with
    | true =>
      cases exporterErr with
      | some e => simp [Metrics.InitMetrics] at hok
      | none =>
        cases err with
        | some e => simp [Metrics.InitMetrics, Metrics.initMetricFields, hl] at hok
        | none =>
          refine ⟨?_, ?_⟩ <;>
            simp [Metrics.InitMetrics, Metrics.initMetricFields, hl, Metrics.Metrics]
    | false =>
      cases exporterErr with
      | some e =>
        cases err with
        | some e2 => simp [Metrics.InitMetrics, Metrics.initMetricFields, hl] at hok
        | none =>
          refine ⟨?_, ?_⟩ <;>
            simp [Metrics.InitMetrics, Metrics.initMetricFields, hl, Metrics.Metrics]
      | none =>
        cases err with
        | some e => simp [Metrics.InitMetrics, Metrics.initMetricFields, hl] at hok
        | none =>
          refine ⟨?_, ?_⟩ <;>
            simp [Metrics.InitMetrics, Metrics.initMetricFields, hl, Metrics.Metrics]
  · intro hne
    have hne' : p.typeId ≠ utid := Ne.symm hne
    simp [Metrics.Metrics, hne']

/-- Witness for claim C4: a concrete successful registration (every
instrument creation succeeds) on a one-field struct, retrieved at the
stored type id 3 and at the mismatched type id 4. -/
theorem claim_C4_metrics_retrieval_witness :
    Metrics.Metrics 0 none = none ∧
    ((Metrics.InitMetrics false none (fun _ _ => none)
        (some (⟨3, 7⟩, [⟨"Counter", .int64Counter⟩])) none).1 = some ⟨3, 7⟩ ∧
      Metrics.Metrics (3 : Nat)
        (Metrics.InitMetrics false none (fun _ _ => none)
          (some (⟨3, 7⟩, [⟨"Counter", .int64Counter⟩])) none).1 = some ⟨3, 7⟩) ∧
    Metrics.Metrics 4 (some ⟨3, 7⟩) = none := by
  obtain ⟨a, b, c⟩ := claim_C4_metrics_retrieval 0 4 ⟨3, 7⟩ [⟨"Counter", .int64Counter⟩]
    (fun _ _ => none) false none none
  exact ⟨a, b rfl, c (by decide)⟩

/-- Claim C1, counterexample: a one-field struct whose instrument
creation fails.  `InitMetrics` does return the creation error, yet
`Metrics[T]()` on the resulting process-wide state returns the struct
pointer rather than empty, because `initMetricFields` assigns
`metricsInstance` before walking the fields. -/
theorem claim_C1_atomicity_counterexample :
    (Metrics.InitMetrics false none (fun _ _ => some "duplicate instrument")
        (some (⟨3, 7⟩, [⟨"Counter", .int64Counter⟩])) none).2 =
      .error "failed to create metric instrument Counter: duplicate instrument" ∧
    Metrics.Metrics 3
      (Metrics.InitMetrics false none (fun _ _ => some "duplicate instrument")
        (some (⟨3, 7⟩, [⟨"Counter", .int64Counter⟩])) none).1 = some ⟨3, 7⟩ :=
  ⟨rfl, rfl⟩

/-- Claim C1, amended: when a field's instrument creation fails,
`InitMetrics` aborts the walk and returns the wrapped creation error
with no teardown — but registration is not atomic: the process-wide
instance has already been set to the supplied struct pointer before the
field walk, so a subsequent `Metrics[T]()` at the matching type returns
the (partially populated) struct pointer instead of empty. -/
theorem claim_C1_failed_registration_amended (create : Metrics.CreateFn) (p : Metrics.GoPtr)
    (fields : List Metrics.FieldSpec) (st0 : Option Metrics.GoPtr) (endpointSet : Bool)
    (e : String) (hfail : (Metrics.initFieldsLoop create fields).1 = some e) :
    (Metrics.InitMetrics endpointSet none create (some (p, fields)) st0).2 = .error e ∧
    (Metrics.InitMetrics endpointSet none create (some (p, fields)) st0).1 = some p ∧
    Metrics.Metrics p.typeId
      (Metrics.InitMetrics endpointSet none create (some (p, fields)) st0).1 = some p := by
  rcases hl : Metrics.initFieldsLoop create fields with ⟨err, populated⟩
  rw [hl] at hfail
  simp only at hfail
  subst hfail
  cases endpointSet <;>
    refine ⟨?_, ?_, ?_⟩ <;>
      simp [Metrics.InitMetrics, Metrics.initMetricFields, hl, Metrics.Metrics]

/-- Witness for claim C1's amended theorem: the concrete failing
registration of the counterexample. -/
theorem claim_C1_failed_registration_witness :
    (Metrics.InitMetrics false none (fun _ _ => some "duplicate instrument")
        (some (⟨3, 7⟩, [⟨"Counter", .int64Counter⟩])) none).2 =
      .error "failed to create metric instrument Counter: duplicate instrument" ∧
    (Metrics.InitMetrics false none (fun _ _ => some "duplicate instrument")
        (some (⟨3, 7⟩, [⟨"Counter", .int64Counter⟩])) none).1 = some ⟨3, 7⟩ ∧
    Metrics.Metrics 3
      (Metrics.InitMetrics false none (fun _ _ => some "duplicate instrument")
        (some (⟨3, 7⟩, [⟨"Counter", .int64Counter⟩])) none).1 = some ⟨3, 7⟩ :=
  claim_C1_failed_registration_amended (fun _ _ => some "duplicate instrument") ⟨3, 7⟩
    [⟨"Counter", .int64Counter⟩] none false
    "failed to create metric instrument Counter: duplicate instrument" rfl

/-- Claim C8: the unified `Init` sequences tracing, then metrics, then
logging; a failure at step N invokes the teardown of every previously
successful step (in reverse order, errors discarded) and returns step N's
error with no teardown; on success the composed teardown invokes the
logger, metrics and tracing teardowns in that order without
short-circuiting and reports the first error encountered. -/
theorem claim_C8_unified_init (e : String) (tErr mErr lErr : Option String)
    (metricsRes loggerRes : Except String (Option String)) :
    Otel.Init (.error e) metricsRes loggerRes = ([], .error e) ∧
    Otel.Init (.ok tErr) (.error e) loggerRes = ([.tracing], .error e) ∧
    Otel.Init (.ok tErr) (.ok mErr) (.error e) = ([.metrics, .tracing], .error e) ∧
    Otel.Init (.ok tErr) (.ok mErr) (.ok lErr) =
      ([], .ok (⟨.logging, lErr⟩, ⟨.metrics, mErr⟩, ⟨.tracing, tErr⟩)) ∧
    (Otel.composedShutdown ⟨.logging, lErr⟩ ⟨.metrics, mErr⟩ ⟨.tracing, tErr⟩).1
      = [.logging, .metrics, .tracing] ∧
    (Otel.composedShutdown ⟨.logging, lErr⟩ ⟨.metrics, mErr⟩ ⟨.tracing, tErr⟩).2
      = (match lErr with
         | some x => some x
         | none =>
           match mErr with
           | some y => some y
           | none => tErr) := by
  refine ⟨rfl, rfl, rfl, rfl, ?_, ?_⟩ <;>
    cases lErr <;> cases mErr <;> cases tErr <;> rfl

/-- Claim C9: `NewJSONHandler` parses the level name through the
underlying (spec-modelled, case-sensitive) level parser — every string
other than DEBUG/INFO/WARN/ERROR fails to parse and is returned as an
error, each of the four names yields a handler configured at that level —
and the returned handler drops every record below the configured level
before it reaches the writer while writing exactly one record per call at
or above it. -/
theorem claim_C9_json_handler_level (resourceAttrs : List Attribute.Attr) (s : String)
    (h : Log.JSONHandler) (r : Log.LogRecord) (written : List Log.LogRecord) :
    (Log.levelParse s = none →
      Log.NewJSONHandler resourceAttrs s =
        .error ("slog: level string " ++ s ++ ": unknown name")) ∧
    (s ≠ "DEBUG" → s ≠ "INFO" → s ≠ "WARN" → s ≠ "ERROR" → Log.levelParse s = none) ∧
    Log.NewJSONHandler resourceAttrs "DEBUG" = .ok ⟨-4, resourceAttrs⟩ ∧
    Log.NewJSONHandler resourceAttrs "INFO" = .ok ⟨0, resourceAttrs⟩ ∧
    Log.NewJSONHandler resourceAttrs "WARN" = .ok ⟨4, resourceAttrs⟩ ∧
    Log.NewJSONHandler resourceAttrs "ERROR" = .ok ⟨8, resourceAttrs⟩ ∧
    (r.level.toInt < h.minLevel → Log.handlerHandle h r written = written) ∧
    (h.minLevel ≤ r.level.toInt →
      Log.handlerHandle h r written = written ++ [Log.bakeRecord h r]) := by
  refine ⟨?_, ?_, rfl, rfl, rfl, rfl, ?_, ?_⟩
  · intro hp
    simp [Log.NewJSONHandler, hp]
  · intro h1 h2 h3 h4
    simp [Log.levelParse, h1, h2, h3, h4]
  · intro hlt
    simp [Log.handlerHandle, not_le.mpr hlt]
  · intro hle
    simp [Log.handlerHandle, hle]

/-- Witness for claim C9: the invalid level name TRACE is rejected, a
DEBUG record is dropped by an INFO-level handler, and an INFO record is
written by it. -/
theorem claim_C9_json_handler_level_witness :
    Log.NewJSONHandler [] "TRACE" =
      .error ("slog: level string " ++ "TRACE" ++ ": unknown name") ∧
    Log.handlerHandle ⟨0, []⟩ ⟨.debug, "m", []⟩ [] = [] ∧
    Log.handlerHandle ⟨0, []⟩ ⟨.info, "m", []⟩ [] = [Log.bakeRecord ⟨0, []⟩ ⟨.info, "m", []⟩] := by
  obtain ⟨c1, _, _, _, _, _, c7, _⟩ :=
    claim_C9_json_handler_level [] "TRACE" ⟨0, []⟩ ⟨.debug, "m", []⟩ []
  obtain ⟨_, _, _, _, _, _, _, d8⟩ :=
    claim_C9_json_handler_level [] "TRACE" ⟨0, []⟩ ⟨.info, "m", []⟩ []
  exact ⟨c1 rfl, c7 (by decide), d8 (by decide)⟩

/-- For a valid span context within the id widths, `TraceHeaders` carries
a `traceparent` entry and `NewChildSpan` fed with those headers adopts
the context as the new span's parent. -/
theorem traceHeaders_roundtrip_child (sc : Tracing.SpanContext)
    (h1 : 0 < sc.traceId) (h2 : sc.traceId < 16 ^ 32)
    (h3 : 0 < sc.spanId) (h4 : sc.spanId < 16 ^ 16)
    (ftid2 fsid2 : Nat) (name2 : String) (attrs2 : List Attribute.Attr) :
    (Tracing.TraceHeaders (some sc)).lookup "traceparent" ≠ none ∧
    (Tracing.NewChildSpan .sdk ftid2 fsid2 none (Tracing.TraceHeaders (some sc))
        name2 attrs2).2.parent = some sc := by
  have ht : sc.traceId ≠ 0 := Nat.pos_iff_ne_zero.mp h1
  have hs : sc.spanId ≠ 0 := Nat.pos_iff_ne_zero.mp h3
  have hvalid : sc.isValid = true := by
    simp [Tracing.SpanContext.isValid, ht, hs]
  have hth : Tracing.TraceHeaders (some sc)
      = [("traceparent", String.mk (Tracing.encodeTraceparent sc))] := by
    simp [Tracing.TraceHeaders, hvalid]
  have hdec : Tracing.decodeTraceparent (String.mk (Tracing.encodeTraceparent sc)).data
      = some sc := by
    simpa using Tracing.decodeTraceparent_encodeTraceparent sc h1 h2 h3 h4
  constructor
  · rw [hth]
    simp [List.lookup]
  · rw [hth]
    simp [Tracing.NewChildSpan, List.lookup, hdec, Tracing.newSpan, hvalid]

/-- Claim C7: for every context produced by `NewSpan` whose span is
valid (non-zero ids within the 128/64-bit widths), `TraceHeaders` yields
a mapping containing the key `traceparent`, and `NewChildSpan` on a fresh
context with that mapping produces a span whose parent span context — in
particular its parent span id — is the original span's. -/
theorem claim_C7_trace_propagation_roundtrip
    (ftid fsid ftid2 fsid2 : Nat) (ctx0 : Tracing.GoContext)
    (name name2 : String) (attrs attrs2 : List Attribute.Attr)
    (h1 : 0 < (Tracing.NewSpan .sdk ftid fsid ctx0 name attrs).2.sc.traceId)
    (h2 : (Tracing.NewSpan .sdk ftid fsid ctx0 name attrs).2.sc.traceId < 16 ^ 32)
    (h3 : 0 < (Tracing.NewSpan .sdk ftid fsid ctx0 name attrs).2.sc.spanId)
    (h4 : (Tracing.NewSpan .sdk ftid fsid ctx0 name attrs).2.sc.spanId < 16 ^ 16) :
    (Tracing.TraceHeaders (Tracing.NewSpan .sdk ftid fsid ctx0 name attrs).1).lookup "traceparent"
      ≠ none ∧
    (Tracing.NewChildSpan .sdk ftid2 fsid2 none
        (Tracing.TraceHeaders (Tracing.NewSpan .sdk ftid fsid ctx0 name attrs).1)
        name2 attrs2).2.parent
      = some (Tracing.NewSpan .sdk ftid fsid ctx0 name attrs).2.sc := by
  have hctx : (Tracing.NewSpan .sdk ftid fsid ctx0 name attrs).1
      = some (Tracing.NewSpan .sdk ftid fsid ctx0 name attrs).2.sc := rfl
  rw [hctx]
  exact traceHeaders_roundtrip_child _ h1 h2 h3 h4 ftid2 fsid2 name2 attrs2

/-- Witness for claim C7: a concrete root span with trace id 1 and span
id 2; the child reconstructed from its trace headers reports it as
parent. -/
theorem claim_C7_trace_propagation_witness :
    (Tracing.TraceHeaders (Tracing.NewSpan .sdk 1 2 none "parent" []).1).lookup "traceparent"
      ≠ none ∧
    (Tracing.NewChildSpan .sdk 3 4 none
        (Tracing.TraceHeaders (Tracing.NewSpan .sdk 1 2 none "parent" []).1) "child" []).2.parent
      = some (Tracing.NewSpan .sdk 1 2 none "parent" []).2.sc :=
  claim_C7_trace_propagation_roundtrip 1 2 3 4 none "parent" "child" [] []
    (by decide) (by decide) (by decide) (by decide)
